import Mathlib

/-!
Shallow embedding of the urgent-jobs backend (Node/Express + PostgreSQL).

Tables are lists of rows; SQL statements are translated to list operations:
`SELECT ... WHERE` into `List.find?` / `List.filter`, `UPDATE` into `List.map`
with a row-rewriting function, `INSERT` into list append.  `NOW()` is an
explicit `now : Nat` argument, fresh SERIAL ids are explicit arguments.
Fallible side effects (notification insertion, the two inserts of the
registration transaction) take a Bool flag saying whether the underlying
query throws.  Status and role values are the raw strings of the source.
-/

namespace UrgentJobs

/-- Row of the `job_applications` table (src/db/setup.sql). -/
structure Application where
  id : Nat
  job_id : Nat
  job_seeker_id : Nat
  cover_letter : String
  status : String
  created_at : Nat
  updated_at : Nat
deriving Repr, DecidableEq

/-- Row of the `jobs` table (the columns the embedded operations touch). -/
structure Job where
  id : Nat
  employer_id : Nat
  title : String
  status : String
  urgency : String
  pay_amount : Nat
  pay_type : String
  updated_at : Nat
deriving Repr, DecidableEq

/-- Row of the `job_seeker_profiles` table (columns used by the operations). -/
structure JobSeekerProfile where
  id : Nat
  user_id : Nat
deriving Repr, DecidableEq

/-- Row of the `employer_profiles` table (columns used by the operations). -/
structure EmployerProfile where
  id : Nat
  user_id : Nat
  company_name : String
deriving Repr, DecidableEq

/-- Row of the `users` table. -/
structure UserRow where
  id : Nat
  email : String
  password : String
  first_name : String
  last_name : String
  phone : String
  role : String
deriving Repr, DecidableEq

/-- Row of the `notifications` table; `ntype` embeds the `type` column. -/
structure NotificationRow where
  id : Nat
  user_id : Nat
  title : String
  message : String
  ntype : String
  related_id : Nat
  is_read : Bool
  created_at : Nat
deriving Repr, DecidableEq

/-- The whole relational state. -/
structure DB where
  users : List UserRow
  job_seeker_profiles : List JobSeekerProfile
  employer_profiles : List EmployerProfile
  jobs : List Job
  job_applications : List Application
  notifications : List NotificationRow
deriving Repr, DecidableEq

/-- HTTP-level outcome of a controller: `successResponse(res, code, message, data)`
or an `ApiError(code, message)` handed to the error handler. -/
inductive Resp (α : Type) where
  | ok (code : Nat) (message : String) (data : α)
  | err (code : Nat) (message : String)
deriving Repr, DecidableEq

/-- Valid status list of both status-update controllers. -/
def validStatusValues : List String := ["pending", "accepted", "rejected", "withdrawn"]

namespace JobApplication

/-- `JobApplication.findById` without details:
`SELECT * FROM job_applications WHERE id = $1`, `rows[0] || null`. -/
def findById (db : DB) (id : Nat) : Option Application :=
  db.job_applications.find? (fun a => a.id == id)

/-- `JobApplication.updateStatus`:
`UPDATE job_applications SET status = $1, updated_at = NOW() WHERE id = $2 RETURNING *`;
returns `rows[0]` and the new table state. -/
def updateStatus (db : DB) (id : Nat) (status : String) (now : Nat) :
    Option Application × DB :=
  let apps := db.job_applications.map (fun a =>
    if a.id == id then { a with status := status, updated_at := now } else a)
  ((apps.filter (fun a => a.id == id)).head?, { db with job_applications := apps })

/-- `JobApplication.hasApplied`:
`SELECT * FROM job_applications WHERE job_seeker_id = $1 AND job_id = $2`, then
`rows.length > 0`. -/
def hasApplied (db : DB) (jobSeekerId jobId : Nat) : Bool :=
  decide (0 < (db.job_applications.filter
    (fun a => a.job_seeker_id == jobSeekerId && a.job_id == jobId)).length)

end JobApplication

/-- Ownership query of the application controllers:
`SELECT j.id FROM jobs j JOIN employer_profiles ep ON j.employer_id = ep.id
WHERE ep.user_id = $1 AND j.id = $2`, tested for non-emptiness. -/
def employerOwnsJob (db : DB) (userId jobId : Nat) : Bool :=
  db.jobs.any (fun j => j.id == jobId &&
    db.employer_profiles.any (fun ep => ep.id == j.employer_id && ep.user_id == userId))

/-- Applicant query of the application controllers:
`SELECT jsp.id FROM job_seeker_profiles jsp WHERE jsp.user_id = $1 AND jsp.id = $2`,
tested for non-emptiness. -/
def seekerIsApplicant (db : DB) (userId jobSeekerId : Nat) : Bool :=
  db.job_seeker_profiles.any (fun p => p.user_id == userId && p.id == jobSeekerId)

/-- Result row of the notification-details join in `updateApplicationStatus`:
`SELECT ja.*, j.title as job_title, jsp.user_id as job_seeker_user_id,
ep.user_id as employer_user_id FROM job_applications ja JOIN jobs j ... WHERE ja.id = $1`. -/
structure ApplicationDetails where
  app : Application
  job_title : String
  job_seeker_user_id : Nat
  employer_user_id : Nat
deriving Repr, DecidableEq

/-- Evaluation of the notification-details join; `none` when any join partner
is missing (then `rows` is empty). -/
def findApplicationDetails (db : DB) (applicationId : Nat) : Option ApplicationDetails :=
  match db.job_applications.find? (fun a => a.id == applicationId) with
  | none => none
  | some a =>
    match db.jobs.find? (fun j => j.id == a.job_id) with
    | none => none
    | some j =>
      match db.job_seeker_profiles.find? (fun p => p.id == a.job_seeker_id) with
      | none => none
      | some p =>
        match db.employer_profiles.find? (fun ep => ep.id == j.employer_id) with
        | none => none
        | some ep => some ⟨a, j.title, p.user_id, ep.user_id⟩

/-- `Notification.create`: `INSERT INTO notifications (user_id, title, message, type,
related_id) VALUES ... RETURNING *` (`is_read` defaults to false). -/
def notificationCreate (db : DB) (newId userId : Nat)
    (title message ntype : String) (relatedId now : Nat) : NotificationRow × DB :=
  let row : NotificationRow := ⟨newId, userId, title, message, ntype, relatedId, false, now⟩
  (row, { db with notifications := db.notifications ++ [row] })

/-- Title chosen by `Notification.createApplicationStatusNotification`. -/
def statusNotificationTitle (newStatus : String) : String :=
  if newStatus == "accepted" then "Application Accepted"
  else if newStatus == "rejected" then "Application Rejected"
  else if newStatus == "withdrawn" then "Application Withdrawn"
  else "Application Status Updated"

/-- Message chosen by `Notification.createApplicationStatusNotification`. -/
def statusNotificationMessage (jobTitle newStatus : String) : String :=
  if newStatus == "accepted" then
    "Your application for " ++ jobTitle ++ " has been accepted!"
  else if newStatus == "rejected" then
    "Your application for " ++ jobTitle ++ " was not accepted."
  else if newStatus == "withdrawn" then
    "An application for " ++ jobTitle ++ " has been withdrawn."
  else
    "Your application status has been updated to " ++ newStatus ++ "."

/-- Tail of the non-admin `updateApplicationStatus` controller after the role
branches fixed `authorized`: the 403 gate, `JobApplication.updateStatus`, the
try/catch-guarded notification dispatch, and the 200 response. -/
def finishStatusUpdate (db : DB) (role : String) (applicationId : Nat)
    (status : String) (now newNotifId : Nat) (notificationFails : Bool)
    (authorized : Bool) : Resp (Option Application) × DB :=
  if !authorized && role != "admin" then
    (.err 403 "You are not authorized to update this application", db)
  else
    let updatedApplication := (JobApplication.updateStatus db applicationId status now).1
    let db1 := (JobApplication.updateStatus db applicationId status now).2
    let db2 :=
      if notificationFails then db1
      else
        match findApplicationDetails db1 applicationId with
        | none => db1
        | some d =>
          let targetUserId : Option Nat :=
            if role == "employer" && (["accepted", "rejected"].contains status) then
              some d.job_seeker_user_id
            else if role == "job_seeker" && status == "withdrawn" then
              some d.employer_user_id
            else none
          match targetUserId with
          | none => db1
          | some t =>
            (notificationCreate db1 newNotifId t (statusNotificationTitle status)
              (statusNotificationMessage d.job_title status) "application_status"
              d.app.id now).2
    (.ok 200 "Application status updated successfully" updatedApplication, db2)

/-- Non-admin controller `updateApplicationStatus`
(PATCH /api/applications/:id/status). -/
def updateApplicationStatus (db : DB) (userId : Nat) (role : String)
    (applicationId : Nat) (status : String) (now newNotifId : Nat)
    (notificationFails : Bool) : Resp (Option Application) × DB :=
  if !(validStatusValues.contains status) then
    (.err 400 "Status must be one of: pending, accepted, rejected, withdrawn", db)
  else
    match JobApplication.findById db applicationId with
    | none => (.err 404 "Application not found", db)
    | some application =>
      if role == "employer" then
        if !((["accepted", "rejected"] : List String).contains status) then
          (.err 400 "Employers can only accept or reject applications", db)
        else
          finishStatusUpdate db role applicationId status now newNotifId notificationFails
            (employerOwnsJob db userId application.job_id)
      else if role == "job_seeker" then
        if status != "withdrawn" then
          (.err 400 "Job seekers can only withdraw their applications", db)
        else
          finishStatusUpdate db role applicationId status now newNotifId notificationFails
            (seekerIsApplicant db userId application.job_seeker_id)
      else
        finishStatusUpdate db role applicationId status now newNotifId notificationFails
          false

/-- Row returned by the admin status update
(`RETURNING id, job_id, status`). -/
structure AdminStatusRow where
  id : Nat
  job_id : Nat
  status : String
deriving Repr, DecidableEq

/-- Admin controller `updateApplicationStatus`
(PATCH /api/admin/applications/:id/status): updates the row, then — only when
the new status is `accepted` — rejects the job's other pending applications
and marks the job `filled`, with no check that the job is still active. -/
def adminUpdateApplicationStatus (db : DB) (applicationId : Nat)
    (status : String) (now : Nat) : Resp (Option AdminStatusRow) × DB :=
  if !(validStatusValues.contains status) then
    (.err 400 "Status must be one of: pending, accepted, rejected, withdrawn", db)
  else
    match db.job_applications.find? (fun a => a.id == applicationId) with
    | none => (.err 404 "Application not found", db)
    | some appCheck =>
      let apps1 := db.job_applications.map (fun a =>
        if a.id == applicationId then { a with status := status, updated_at := now } else a)
      let row := ((apps1.filter (fun a => a.id == applicationId)).head?).map
        (fun a => AdminStatusRow.mk a.id a.job_id a.status)
      let db1 := { db with job_applications := apps1 }
      let db2 :=
        if status == "accepted" then
          let jobId := appCheck.job_id
          let apps2 := db1.job_applications.map (fun a =>
            if a.job_id == jobId && a.id != applicationId && a.status == "pending" then
              { a with status := "rejected", updated_at := now }
            else a)
          let jobs2 := db1.jobs.map (fun j =>
            if j.id == jobId then { j with status := "filled", updated_at := now } else j)
          { db1 with job_applications := apps2, jobs := jobs2 }
        else db1
      (.ok 200 ("Application status updated to " ++ status ++ " successfully") row, db2)

/-- Success payload of `applyForJob`: the created row plus job display fields. -/
structure ApplyResponse where
  application : Application
  job_title : String
  job_urgency : String
  job_pay_amount : Nat
  job_pay_type : String
deriving Repr, DecidableEq

/-- Controller `applyForJob` (POST /api/applications).  The notification insert
is NOT wrapped in a local try/catch: when it throws, the outer catch forwards
the error (a plain storage error, rendered 500 by the error handler) although
the application row is already inserted. -/
def applyForJob (db : DB) (userId jobId : Nat) (coverLetter : String)
    (newAppId newNotifId now : Nat) (notificationFails : Bool) :
    Resp ApplyResponse × DB :=
  match db.job_seeker_profiles.find? (fun p => p.user_id == userId) with
  | none => (.err 404 "Job seeker profile not found", db)
  | some jobSeekerProfile =>
    let jobSeekerId := jobSeekerProfile.id
    match db.jobs.find? (fun j => j.id == jobId && j.status == "active") with
    | none => (.err 404 "Job not found or not active", db)
    | some job =>
      if JobApplication.hasApplied db jobSeekerId jobId then
        (.err 400 "You have already applied for this job", db)
      else
        let application : Application :=
          ⟨newAppId, jobId, jobSeekerId, coverLetter, "pending", now, now⟩
        let db1 := { db with job_applications := db.job_applications ++ [application] }
        let employerRow : Option (Nat × String) :=
          match db1.jobs.find? (fun j => j.id == jobId) with
          | none => none
          | some j =>
            match db1.employer_profiles.find? (fun ep => ep.id == j.employer_id) with
            | none => none
            | some ep =>
              match db1.users.find? (fun u => u.id == ep.user_id) with
              | none => none
              | some u => some (u.id, j.title)
        let respData : ApplyResponse :=
          ⟨application, job.title, job.urgency, job.pay_amount, job.pay_type⟩
        match employerRow with
        | none => (.ok 201 "Application submitted successfully" respData, db1)
        | some er =>
          if notificationFails then
            (.err 500 "Server Error", db1)
          else
            let db2 := (notificationCreate db1 newNotifId er.1 "New Job Application"
              ("undefined undefined has applied for your job: " ++ er.2)
              "new_application" application.id now).2
            (.ok 201 "Application submitted successfully" respData, db2)

/-- Result row of `JobApplication.findById` with `includeDetails = true`
(representative joined columns). -/
structure ApplicationWithDetails where
  app : Application
  job_title : String
  company_name : String
  seeker_first_name : String
  seeker_last_name : String
deriving Repr, DecidableEq

/-- Evaluation of the details join of `JobApplication.findById(id, true)`;
`none` when the row or any join partner is missing. -/
def findByIdWithDetails (db : DB) (id : Nat) : Option ApplicationWithDetails :=
  match db.job_applications.find? (fun a => a.id == id) with
  | none => none
  | some a =>
    match db.jobs.find? (fun j => j.id == a.job_id) with
    | none => none
    | some j =>
      match db.employer_profiles.find? (fun ep => ep.id == j.employer_id) with
      | none => none
      | some ep =>
        match db.users.find? (fun u => u.id == ep.user_id) with
        | none => none
        | some _uEmployer =>
          match db.job_seeker_profiles.find? (fun p => p.id == a.job_seeker_id) with
          | none => none
          | some p =>
            match db.users.find? (fun u => u.id == p.user_id) with
            | none => none
            | some uSeeker =>
              some ⟨a, j.title, ep.company_name, uSeeker.first_name, uSeeker.last_name⟩

/-- Controller `getApplicationById` (GET /api/applications/:id); a pure read. -/
def getApplicationById (db : DB) (userId : Nat) (role : String)
    (applicationId : Nat) : Resp ApplicationWithDetails :=
  match findByIdWithDetails db applicationId with
  | none => .err 404 "Application not found"
  | some application =>
    let authorized :=
      if role == "job_seeker" then
        seekerIsApplicant db userId application.app.job_seeker_id
      else if role == "employer" then
        employerOwnsJob db userId application.app.job_id
      else false
    if !authorized && role != "admin" then
      .err 403 "You are not authorized to view this application"
    else
      .ok 200 "Application retrieved successfully" application

/-- Request body of the registration controller. -/
structure RegisterInput where
  email : String
  password : String
  firstName : String
  lastName : String
  phone : String
  role : String
  companyName : String
deriving Repr, DecidableEq

/-- Controller `register` (POST /api/auth/register).  After the role and
duplicate-email checks the controller runs
`const client = await query.pool.connect()`.  It destructures only `query`
from connection.js, and `pool` is a separate export of that module, so
`query.pool` is undefined and this line throws a TypeError BEFORE `BEGIN`;
the outer catch forwards the error (rendered 500).  The transaction block —
user insert, role-profile insert, COMMIT, and the 201 response — is therefore
dead code and registration can never commit anything.  The hashed password,
fresh ids and insert-failure flags stay in the signature for the call sites
but are never consumed on any reachable path. -/
def register (db : DB) (input : RegisterInput) (_hashedPassword : String)
    (_newUserId _newProfileId : Nat) (_userInsertFails _profileInsertFails : Bool) :
    Resp UserRow × DB :=
  if !((["job_seeker", "employer"] : List String).contains input.role) then
    (.err 400 "Invalid role. Must be job_seeker or employer", db)
  else if db.users.any (fun u => u.email == input.email) then
    (.err 400 "User with this email already exists", db)
  else
    (.err 500 "Server Error", db)

namespace Notification

/-- `Notification.markAllAsRead`:
`UPDATE notifications SET is_read = true WHERE user_id = $1 AND is_read = false
RETURNING id`, then `rows.map(row => row.id)`. -/
def markAllAsRead (db : DB) (userId : Nat) : List Nat × DB :=
  ((db.notifications.filter
      (fun n => n.user_id == userId && n.is_read == false)).map (fun n => n.id),
    { db with notifications := db.notifications.map (fun n =>
        if n.user_id == userId && n.is_read == false then { n with is_read := true }
        else n) })

/-- `Notification.getUnreadCount`:
`SELECT COUNT(*) FROM notifications WHERE user_id = $1 AND is_read = false`. -/
def getUnreadCount (db : DB) (userId : Nat) : Nat :=
  (db.notifications.filter (fun n => n.user_id == userId && n.is_read == false)).length

end Notification

/-! Concrete databases used by counterexamples and witnesses. -/

/-- Concrete database: one employer (user 10, profile 1) owning one active job
(id 1, title parameterized), three job seekers (users 20/21/22, profiles 1/2/3),
an admin (user 30), and two pending applications (profiles 1 and 2) on job 1. -/
def sampleDB (title : String) : DB :=
  { users := [⟨10, "emp@x.com", "pw", "Emma", "Ployer", "017", "employer"⟩,
              ⟨20, "s1@x.com", "pw", "Sara", "One", "018", "job_seeker"⟩,
              ⟨21, "s2@x.com", "pw", "Sam", "Two", "019", "job_seeker"⟩,
              ⟨22, "s3@x.com", "pw", "Sol", "Three", "020", "job_seeker"⟩,
              ⟨30, "admin@x.com", "pw", "Ada", "Min", "021", "admin"⟩],
    job_seeker_profiles := [⟨1, 20⟩, ⟨2, 21⟩, ⟨3, 22⟩],
    employer_profiles := [⟨1, 10, "Acme"⟩],
    jobs := [⟨1, 1, title, "active", "high", 100, "hourly", 0⟩],
    job_applications := [⟨1, 1, 1, "cover one", "pending", 0, 0⟩,
                         ⟨2, 1, 2, "cover two", "pending", 0, 0⟩],
    notifications := [] }

/-- Concrete database for the acceptance cascade: one active job with four
applications, the target (id 1, pending) and one sibling of each other
situation: pending (id 2), withdrawn (id 3), rejected (id 4). -/
def cascadeDB : DB :=
  { users := [⟨10, "emp@x.com", "pw", "Emma", "Ployer", "017", "employer"⟩,
              ⟨20, "s1@x.com", "pw", "Sara", "One", "018", "job_seeker"⟩,
              ⟨21, "s2@x.com", "pw", "Sam", "Two", "019", "job_seeker"⟩,
              ⟨22, "s3@x.com", "pw", "Sol", "Three", "020", "job_seeker"⟩,
              ⟨23, "s4@x.com", "pw", "Sid", "Four", "022", "job_seeker"⟩],
    job_seeker_profiles := [⟨1, 20⟩, ⟨2, 21⟩, ⟨3, 22⟩, ⟨4, 23⟩],
    employer_profiles := [⟨1, 10, "Acme"⟩],
    jobs := [⟨1, 1, "Roof repair", "active", "high", 100, "hourly", 0⟩],
    job_applications := [⟨1, 1, 1, "c1", "pending", 0, 0⟩,
                         ⟨2, 1, 2, "c2", "pending", 0, 0⟩,
                         ⟨3, 1, 3, "c3", "withdrawn", 0, 0⟩,
                         ⟨4, 1, 4, "c4", "rejected", 0, 0⟩],
    notifications := [] }

/-! Claim C1. -/

/-- C1, counterexample: in `sampleDB "Gardening"` the owning employer (user 10)
accepts application 1 through the non-admin status-update operation.  The call
succeeds (200, status `accepted`), yet the sibling pending application 2 stays
`pending` and job 1 stays `active` — the claimed cascade does not happen for
this authorized actor, because only the admin controller implements it. -/
theorem employerAccept_noCascade :
    (updateApplicationStatus (sampleDB "Gardening") 10 "employer" 1 "accepted" 5 100 false).1 =
      Resp.ok 200 "Application status updated successfully"
        (some ⟨1, 1, 1, "cover one", "accepted", 0, 5⟩) ∧
    (updateApplicationStatus (sampleDB "Gardening") 10 "employer" 1 "accepted" 5 100
        false).2.job_applications =
      [⟨1, 1, 1, "cover one", "accepted", 0, 5⟩, ⟨2, 1, 2, "cover two", "pending", 0, 0⟩] ∧
    (updateApplicationStatus (sampleDB "Gardening") 10 "employer" 1 "accepted" 5 100
        false).2.jobs =
      [⟨1, 1, "Gardening", "active", "high", 100, "hourly", 0⟩] := by
  decide

/-- C1, amended: through the ADMIN status-update operation, accepting an
application rewrites every other application of the same job that is `pending`
to `rejected` (applications in any other status are untouched), and sets the
parent job's status to `filled` unconditionally, with no re-check that the job
is `active`. -/
theorem adminAccept_cascade (db : DB) (applicationId now : Nat) (app : Application)
    (hfind : db.job_applications.find? (fun a => a.id == applicationId) = some app) :
    (∃ row, (adminUpdateApplicationStatus db applicationId "accepted" now).1 =
      Resp.ok 200 "Application status updated to accepted successfully" row) ∧
    (adminUpdateApplicationStatus db applicationId "accepted" now).2.job_applications =
      db.job_applications.map (fun a =>
        if a.id = applicationId then { a with status := "accepted", updated_at := now }
        else if a.job_id = app.job_id ∧ a.status = "pending" then
          { a with status := "rejected", updated_at := now }
        else a) ∧
    (adminUpdateApplicationStatus db applicationId "accepted" now).2.jobs =
      db.jobs.map (fun j =>
        if j.id = app.job_id then { j with status := "filled", updated_at := now } else j) := by
  unfold adminUpdateApplicationStatus
  rw [if_neg (by decide), hfind]
  dsimp only
  rw [if_pos (by decide)]
  refine ⟨⟨_, rfl⟩, ?_, ?_⟩
  · show (List.map _ (List.map _ db.job_applications)) = _
    rw [List.map_map]
    refine List.map_congr_left ?_
    intro a _
    by_cases h1 : a.id = applicationId
    · simp [Function.comp, h1]
    · by_cases h2 : a.job_id = app.job_id
      · by_cases h3 : a.status = "pending"
        · simp [Function.comp, h1, h2, h3]
        · simp [Function.comp, h1, h2, h3]
      · simp [Function.comp, h1, h2]
  · show (List.map _ db.jobs) = _
    refine List.map_congr_left ?_
    intro j _
    by_cases h1 : j.id = app.job_id
    · simp [h1]
    · simp [h1]

/-- C1, witness: accepting application 1 of `cascadeDB` through the admin
operation turns the pending sibling (id 2) to `rejected`, leaves the withdrawn
(id 3) and rejected (id 4) siblings unchanged, and marks job 1 `filled`. -/
theorem adminAccept_cascade_witness :
    (adminUpdateApplicationStatus cascadeDB 1 "accepted" 5).2.job_applications =
      [⟨1, 1, 1, "c1", "accepted", 0, 5⟩, ⟨2, 1, 2, "c2", "rejected", 0, 5⟩,
       ⟨3, 1, 3, "c3", "withdrawn", 0, 0⟩, ⟨4, 1, 4, "c4", "rejected", 0, 0⟩] ∧
    (adminUpdateApplicationStatus cascadeDB 1 "accepted" 5).2.jobs =
      [⟨1, 1, "Roof repair", "filled", "high", 100, "hourly", 5⟩] := by
  have h := adminAccept_cascade cascadeDB 1 5 ⟨1, 1, 1, "c1", "pending", 0, 0⟩ (by decide)
  exact ⟨h.2.1.trans (by decide), h.2.2.trans (by decide)⟩

/-! Claim C2. -/

/-- Helper: in `finishStatusUpdate`, the notification-failure flag changes
neither the response nor the applications, jobs, or pre-existing notification
rows: a failing dispatch only withholds the new notification row. -/
theorem finishStatusUpdate_failureContained (db : DB) (role : String)
    (applicationId : Nat) (status : String) (now newNotifId : Nat) (authorized : Bool) :
    (finishStatusUpdate db role applicationId status now newNotifId true authorized).1 =
      (finishStatusUpdate db role applicationId status now newNotifId false authorized).1 ∧
    (finishStatusUpdate db role applicationId status now newNotifId true
        authorized).2.job_applications =
      (finishStatusUpdate db role applicationId status now newNotifId false
        authorized).2.job_applications ∧
    (finishStatusUpdate db role applicationId status now newNotifId true authorized).2.jobs =
      (finishStatusUpdate db role applicationId status now newNotifId false
        authorized).2.jobs ∧
    (finishStatusUpdate db role applicationId status now newNotifId true
        authorized).2.notifications = db.notifications := by
  unfold finishStatusUpdate
  split
  · exact ⟨rfl, rfl, rfl, rfl⟩
  · refine ⟨rfl, ?_, ?_, rfl⟩ <;>
    · dsimp only
      rw [if_pos rfl, if_neg (by decide)]
      repeat first
      | rfl
      | split

/-- C2 (amended, status-update part): for the status-update operation a failure
while constructing or persisting the notification is contained: the response
(including its success/error shape and payload) and the resulting
`job_applications` and `jobs` tables are identical to those of a run whose
notification dispatch succeeds, and no notification row is added. -/
theorem statusUpdate_notificationFailure_contained (db : DB) (userId : Nat)
    (role : String) (applicationId : Nat) (status : String) (now newNotifId : Nat) :
    (updateApplicationStatus db userId role applicationId status now newNotifId true).1 =
      (updateApplicationStatus db userId role applicationId status now newNotifId false).1 ∧
    (updateApplicationStatus db userId role applicationId status now newNotifId
        true).2.job_applications =
      (updateApplicationStatus db userId role applicationId status now newNotifId
        false).2.job_applications ∧
    (updateApplicationStatus db userId role applicationId status now newNotifId
        true).2.jobs =
      (updateApplicationStatus db userId role applicationId status now newNotifId
        false).2.jobs ∧
    (updateApplicationStatus db userId role applicationId status now newNotifId
        true).2.notifications = db.notifications := by
  unfold updateApplicationStatus
  split
  · exact ⟨rfl, rfl, rfl, rfl⟩
  · split
    · exact ⟨rfl, rfl, rfl, rfl⟩
    · split
      · split
        · exact ⟨rfl, rfl, rfl, rfl⟩
        · exact finishStatusUpdate_failureContained ..
      · split
        · split
          · exact ⟨rfl, rfl, rfl, rfl⟩
          · exact finishStatusUpdate_failureContained ..
        · exact finishStatusUpdate_failureContained ..

/-- C2, counterexample: in `applyForJob` the notification insert is not wrapped
in a local try/catch.  Concretely, job seeker user 22 applies to active job 1
of `sampleDB "Gardening"` and the notification insert throws: the application
row (id 3) IS persisted, yet the operation returns the propagated storage
error (rendered 500) instead of its 201 success result — refuting the claim
for the application-creation operation. -/
theorem applyForJob_notificationFailure_propagates :
    (applyForJob (sampleDB "Gardening") 22 1 "cover three" 3 100 5 true).1 =
      Resp.err 500 "Server Error" ∧
    (applyForJob (sampleDB "Gardening") 22 1 "cover three" 3 100 5
        true).2.job_applications =
      [⟨1, 1, 1, "cover one", "pending", 0, 0⟩, ⟨2, 1, 2, "cover two", "pending", 0, 0⟩,
       ⟨3, 1, 3, "cover three", "pending", 5, 5⟩] := by
  decide

/-! Claim C3. -/

/-- C3: with a valid status value and an existing application, an employer
requesting a status outside {accepted, rejected}, or a job seeker requesting
anything but `withdrawn`, receives the role-specific InvalidTransition 400
error with the database unchanged — for EVERY database, hence regardless of
whether the actor owns or does not own the job or application: the transition
check fires before the ownership query runs. -/
theorem invalidTransition_beforeOwnership (db : DB)
    (userId applicationId now newNotifId : Nat) (role status : String) (nf : Bool)
    (app : Application)
    (hvalid : validStatusValues.contains status = true)
    (hfind : JobApplication.findById db applicationId = some app)
    (hrole : (role = "employer" ∧ status ≠ "accepted" ∧ status ≠ "rejected") ∨
             (role = "job_seeker" ∧ status ≠ "withdrawn")) :
    updateApplicationStatus db userId role applicationId status now newNotifId nf =
      (Resp.err 400
        (if role = "employer" then "Employers can only accept or reject applications"
         else "Job seekers can only withdraw their applications"), db) := by
  have hmem : status ∈ validStatusValues := by simpa using hvalid
  rcases hrole with ⟨hr, hs1, hs2⟩ | ⟨hr, hs⟩ <;> subst hr <;>
    unfold updateApplicationStatus <;> rw [hfind]
  · simp [hmem, hs1, hs2]
  · simp [hmem, hs]

/-- C3, witness: the owning employer (user 10 of `sampleDB "Gardening"`)
requests `withdrawn` on application 1 and receives the InvalidTransition
error, even though they own the parent job. -/
theorem invalidTransition_beforeOwnership_witness :
    updateApplicationStatus (sampleDB "Gardening") 10 "employer" 1 "withdrawn" 5 100 false =
      (Resp.err 400 "Employers can only accept or reject applications",
        sampleDB "Gardening") := by
  have h := invalidTransition_beforeOwnership (sampleDB "Gardening") 10 1 5 100
    "employer" "withdrawn" false ⟨1, 1, 1, "cover one", "pending", 0, 0⟩
    (by decide) (by decide) (Or.inl ⟨rfl, by decide, by decide⟩)
  exact h.trans (by decide)

/-! Claim C4. -/

/-- Concrete database: like `sampleDB`, but job seeker profile 1 (user 20) has
a single prior application on job 1 whose status is `withdrawn`. -/
def withdrawnDB : DB := { sampleDB "Fence painting" with
  job_applications := [⟨1, 1, 1, "old cover", "withdrawn", 0, 0⟩] }

/-- C4: when the caller's job-seeker profile exists and the target job is
active (the checks the controller performs first), the presence of ANY
application row for the (job, job seeker) pair — its status unconstrained,
including `withdrawn` or `rejected` — makes `applyForJob` fail with the 400
Conflict error and leave the database unchanged, so no second row for the
pair is ever created. -/
theorem duplicateApplication_conflict (db : DB)
    (userId jobId newAppId newNotifId now : Nat) (coverLetter : String) (nf : Bool)
    (p : JobSeekerProfile) (a : Application)
    (hp : db.job_seeker_profiles.find? (fun q => q.user_id == userId) = some p)
    (hjob : ∃ j, db.jobs.find? (fun j => j.id == jobId && j.status == "active") = some j)
    (ha : a ∈ db.job_applications) (haj : a.job_id = jobId)
    (has : a.job_seeker_id = p.id) :
    applyForJob db userId jobId coverLetter newAppId newNotifId now nf =
      (Resp.err 400 "You have already applied for this job", db) := by
  obtain ⟨j, hj⟩ := hjob
  have happ : JobApplication.hasApplied db p.id jobId = true := by
    unfold JobApplication.hasApplied
    have hmem : a ∈ db.job_applications.filter
        (fun x => x.job_seeker_id == p.id && x.job_id == jobId) :=
      List.mem_filter.mpr ⟨ha, by simp [haj, has]⟩
    exact decide_eq_true (List.length_pos.mpr (List.ne_nil_of_mem hmem))
  unfold applyForJob
  rw [hp, hj]
  dsimp only
  rw [if_pos happ]

/-- C4, witness: job seeker user 20, whose only prior application on job 1 is
`withdrawn`, attempts to apply again and receives the Conflict error with the
database unchanged. -/
theorem duplicateApplication_conflict_witness :
    applyForJob withdrawnDB 20 1 "again" 9 100 7 false =
      (Resp.err 400 "You have already applied for this job", withdrawnDB) :=
  duplicateApplication_conflict withdrawnDB 20 1 9 100 7 "again" false ⟨1, 20⟩
    ⟨1, 1, 1, "old cover", "withdrawn", 0, 0⟩ (by decide)
    ⟨⟨1, 1, "Fence painting", "active", "high", 100, "hourly", 0⟩, by decide⟩
    (by decide) rfl rfl

/-! Claim C5. -/

/-- C5, counterexample: two runs of the status-update operation on databases
identical except for the parent job's title ("Alpha" vs "Beta") return the
very same successful response, so the response cannot include the job's
title; the payload is the bare `job_applications` row produced by
`RETURNING *` on `job_applications` alone, which has no title column. -/
theorem statusUpdateResponse_lacksJobTitle :
    (updateApplicationStatus (sampleDB "Alpha") 10 "employer" 1 "accepted" 5 100 false).1 =
      (updateApplicationStatus (sampleDB "Beta") 10 "employer" 1 "accepted" 5 100
        false).1 ∧
    (updateApplicationStatus (sampleDB "Alpha") 10 "employer" 1 "accepted" 5 100 false).1 =
      Resp.ok 200 "Application status updated successfully"
        (some ⟨1, 1, 1, "cover one", "accepted", 0, 5⟩) := by
  decide

/-- C5 (amended): every successful call of the non-admin status-update
operation returns code 200 with exactly the row produced by
`JobApplication.updateStatus` — the raw `job_applications` columns (id,
job_id, job_seeker_id, cover_letter, status, created_at, updated_at), with no
denormalized job title. -/
theorem statusUpdate_returnsBareUpdatedRow (db : DB) (userId : Nat) (role : String)
    (applicationId : Nat) (status : String) (now newNotifId : Nat) (nf : Bool)
    (c : Nat) (m : String) (d : Option Application)
    (hok : (updateApplicationStatus db userId role applicationId status now newNotifId
      nf).1 = Resp.ok c m d) :
    c = 200 ∧ m = "Application status updated successfully" ∧
    d = (JobApplication.updateStatus db applicationId status now).1 := by
  unfold updateApplicationStatus finishStatusUpdate at hok
  split at hok
  · exact absurd hok (by simp)
  · rcases hfind2 : JobApplication.findById db applicationId with _ | app <;>
      rw [hfind2] at hok <;> dsimp only at hok
    · simp at hok
    · iterate 8 (all_goals try split at hok)
      all_goals simp_all

/-- C5, witness: the accepted row returned for application 1 of
`sampleDB "Gardening"` is the bare updated `job_applications` row. -/
theorem statusUpdate_returnsBareUpdatedRow_witness :
    (some (⟨1, 1, 1, "cover one", "accepted", 0, 5⟩ : Application)) =
      (JobApplication.updateStatus (sampleDB "Gardening") 1 "accepted" 5).1 := by
  have h := statusUpdate_returnsBareUpdatedRow (sampleDB "Gardening") 10 "employer" 1
    "accepted" 5 100 false 200 "Application status updated successfully"
    (some ⟨1, 1, 1, "cover one", "accepted", 0, 5⟩) (by decide)
  exact h.2.2

/-! Claim C6. -/

/-- C6: view authorization of `getApplicationById`: when the detailed lookup
finds no row the result is the 404 error; when it finds `d`, the call
succeeds exactly when the actor is an admin, the job seeker who submitted the
application, or the employer who posted the parent job, and every other
actor receives the 403 error. -/
theorem getApplicationById_access (db : DB) (userId : Nat) (role : String)
    (applicationId : Nat) :
    (findByIdWithDetails db applicationId = none →
      getApplicationById db userId role applicationId =
        Resp.err 404 "Application not found") ∧
    (∀ d, findByIdWithDetails db applicationId = some d →
      getApplicationById db userId role applicationId =
        (if role = "admin" ∨
            (role = "job_seeker" ∧
              seekerIsApplicant db userId d.app.job_seeker_id = true) ∨
            (role = "employer" ∧ employerOwnsJob db userId d.app.job_id = true) then
          Resp.ok 200 "Application retrieved successfully" d
        else Resp.err 403 "You are not authorized to view this application")) := by
  constructor
  · intro h
    unfold getApplicationById
    rw [h]
  · intro d h
    unfold getApplicationById
    rw [h]
    dsimp only
    by_cases h1 : role = "admin"
    · subst h1
      simp
    · by_cases h2 : role = "job_seeker"
      · subst h2
        cases h3 : seekerIsApplicant db userId d.app.job_seeker_id <;> simp [h3]
      · by_cases h4 : role = "employer"
        · subst h4
          cases h5 : employerOwnsJob db userId d.app.job_id <;> simp [h5]
        · simp [h1, h2, h4]

/-- C6, witness: user 21 is a job seeker but not the applicant of
application 1 in `sampleDB "Gardening"`, so viewing it yields the 403
error. -/
theorem getApplicationById_access_witness :
    getApplicationById (sampleDB "Gardening") 21 "job_seeker" 1 =
      Resp.err 403 "You are not authorized to view this application" := by
  have h := (getApplicationById_access (sampleDB "Gardening") 21 "job_seeker" 1).2
    ⟨⟨1, 1, 1, "cover one", "pending", 0, 0⟩, "Gardening", "Acme", "Sara", "One"⟩
    (by decide)
  exact h.trans (by decide)

/-! Claim C7. -/

/-- C7: the registration transaction can never commit.  Past the role and
duplicate-email checks, the controller dereferences `query.pool`, which is
undefined (connection.js exports `pool` separately and only `query` is
destructured), so every such call throws before `BEGIN` and returns the
propagated 500.  On every path `register` leaves the database unchanged and
never returns a success, so the claimed atomic creation of user plus profile
is unreachable in the code — the transaction block is dead code. -/
theorem register_neverSucceeds (db : DB) (input : RegisterInput)
    (hashedPassword : String) (newUserId newProfileId : Nat) (uf pf : Bool) :
    (register db input hashedPassword newUserId newProfileId uf pf).2 = db ∧
    ∀ c m u, (register db input hashedPassword newUserId newProfileId uf pf).1 ≠
      Resp.ok c m u := by
  unfold register
  split
  · exact ⟨rfl, fun c m u h => by simp at h⟩
  · split
    · exact ⟨rfl, fun c m u h => by simp at h⟩
    · exact ⟨rfl, fun c m u h => by simp at h⟩

/-- C7, witness: a well-formed registration (fresh email, role job_seeker)
against `sampleDB "Gardening"` fails with the propagated 500 and leaves the
database unchanged — the failing input of the `query.pool` slip. -/
theorem register_neverSucceeds_witness :
    (register (sampleDB "Gardening")
      ⟨"new@x.com", "pw", "N", "U", "016", "job_seeker", ""⟩ "hash" 99 9 false
      false).1 = Resp.err 500 "Server Error" ∧
    (register (sampleDB "Gardening")
      ⟨"new@x.com", "pw", "N", "U", "016", "job_seeker", ""⟩ "hash" 99 9 false
      false).2 = sampleDB "Gardening" := by
  have h := register_neverSucceeds (sampleDB "Gardening")
    ⟨"new@x.com", "pw", "N", "U", "016", "job_seeker", ""⟩ "hash" 99 9 false false
  exact ⟨by decide, h.1⟩

/-! Claim C8. -/

/-- C8: `markAllAsRead` returns exactly the ids of the caller's notifications
that are unread at call time (their count equals `getUnreadCount`), every
notification not matching (other user, or already read) is kept unchanged,
and afterwards `getUnreadCount` for that user returns 0. -/
theorem markAllAsRead_spec (db : DB) (userId : Nat) :
    (Notification.markAllAsRead db userId).1.length =
      Notification.getUnreadCount db userId ∧
    (∀ i, i ∈ (Notification.markAllAsRead db userId).1 ↔
      ∃ n ∈ db.notifications, n.id = i ∧ n.user_id = userId ∧ n.is_read = false) ∧
    (∀ n ∈ db.notifications, ¬(n.user_id = userId ∧ n.is_read = false) →
      n ∈ (Notification.markAllAsRead db userId).2.notifications) ∧
    Notification.getUnreadCount (Notification.markAllAsRead db userId).2 userId = 0 := by
  refine ⟨?_, ?_, ?_, ?_⟩
  · simp [Notification.markAllAsRead, Notification.getUnreadCount]
  · intro i
    unfold Notification.markAllAsRead
    constructor
    · intro hi
      rw [List.mem_map] at hi
      obtain ⟨n, hn, rfl⟩ := hi
      rw [List.mem_filter] at hn
      have hc := hn.2
      simp only [Bool.and_eq_true, beq_iff_eq, beq_false] at hc
      exact ⟨n, hn.1, rfl, hc.1, by simpa using hc.2⟩
    · rintro ⟨n, hn, rfl, hu, hr⟩
      rw [List.mem_map]
      exact ⟨n, List.mem_filter.mpr ⟨hn, by simp [hu, hr]⟩, rfl⟩
  · intro n hn hcond
    unfold Notification.markAllAsRead
    have heq : (if n.user_id == userId && n.is_read == false then
        { n with is_read := true } else n) = n := by
      rw [if_neg]
      intro h
      exact hcond (by simpa using h)
    exact heq ▸ List.mem_map_of_mem _ hn
  · unfold Notification.markAllAsRead Notification.getUnreadCount
    rw [List.length_eq_zero, List.filter_eq_nil_iff]
    intro a ha
    rw [List.mem_map] at ha
    obtain ⟨n, hn, rfl⟩ := ha
    by_cases h1 : n.user_id = userId
    · by_cases h2 : n.is_read = false
      · rw [if_pos (by simp [h1, h2])]
        simp
      · rw [if_neg (by simp [h2])]
        simp [Bool.not_eq_false] at h2
        simp [h2]
    · rw [if_neg (by simp [h1])]
      simp [h1]

/-- Concrete database for the mark-all-as-read scenario: user 20 has three
unread notifications (ids 1, 3, 5) and one read (id 2); user 21 has one
unread (id 4). -/
def notifDB : DB := { sampleDB "Gardening" with notifications := [
  ⟨1, 20, "t1", "m1", "application_status", 1, false, 0⟩,
  ⟨2, 20, "t2", "m2", "application_status", 1, true, 0⟩,
  ⟨3, 20, "t3", "m3", "new_application", 1, false, 0⟩,
  ⟨4, 21, "t4", "m4", "new_review", 2, false, 0⟩,
  ⟨5, 20, "t5", "m5", "new_review", 2, false, 0⟩] }

/-- C8, witness: user 20 of `notifDB` has 3 unread notifications;
mark-all-as-read returns their three ids and the unread count drops to 0. -/
theorem markAllAsRead_spec_witness :
    (Notification.markAllAsRead notifDB 20).1 = [1, 3, 5] ∧
    (Notification.markAllAsRead notifDB 20).1.length = 3 ∧
    Notification.getUnreadCount (Notification.markAllAsRead notifDB 20).2 20 = 0 := by
  have h := markAllAsRead_spec notifDB 20
  exact ⟨by decide, by decide, h.2.2.2⟩

/-! Claim C9. -/

/-- C9: registration with any role outside {job_seeker, employer} — "admin"
included — fails immediately with the 400 error and returns the database
unchanged: the check runs before any write, so no admin account can ever be
created through public registration. -/
theorem register_rejectsInvalidRole (db : DB) (input : RegisterInput)
    (hashedPassword : String) (newUserId newProfileId : Nat) (uf pf : Bool)
    (h1 : input.role ≠ "job_seeker") (h2 : input.role ≠ "employer") :
    register db input hashedPassword newUserId newProfileId uf pf =
      (Resp.err 400 "Invalid role. Must be job_seeker or employer", db) := by
  unfold register
  rw [if_pos (by simp [h1, h2])]

/-- C9, witness: registering with role "admin" is rejected with 400 and does
not change the database. -/
theorem register_rejectsInvalidRole_witness :
    register (sampleDB "Gardening") ⟨"boss@x.com", "pw", "B", "O", "015", "admin", ""⟩
      "hash" 99 9 false false =
      (Resp.err 400 "Invalid role. Must be job_seeker or employer",
        sampleDB "Gardening") :=
  register_rejectsInvalidRole (sampleDB "Gardening")
    ⟨"boss@x.com", "pw", "B", "O", "015", "admin", ""⟩ "hash" 99 9 false false
    (by decide) (by decide)

/-! Claim C10. -/

/-- C10: frame property of `JobApplication.updateStatus`: the applications
table keeps its length; positionally, every row keeps its id, job_id,
job_seeker_id, cover_letter and created_at; every row whose id differs from
the target is completely unchanged; and the users, profiles, jobs and
notifications tables are untouched. -/
theorem updateStatus_frame (db : DB) (id : Nat) (status : String) (now : Nat) :
    ((JobApplication.updateStatus db id status now).2.job_applications.length =
      db.job_applications.length) ∧
    (∀ i (h : i < db.job_applications.length)
        (h' : i < (JobApplication.updateStatus db id status
          now).2.job_applications.length),
      (((JobApplication.updateStatus db id status now).2.job_applications.get
          ⟨i, h'⟩).id = (db.job_applications.get ⟨i, h⟩).id ∧
        ((JobApplication.updateStatus db id status now).2.job_applications.get
          ⟨i, h'⟩).job_id = (db.job_applications.get ⟨i, h⟩).job_id ∧
        ((JobApplication.updateStatus db id status now).2.job_applications.get
          ⟨i, h'⟩).job_seeker_id = (db.job_applications.get ⟨i, h⟩).job_seeker_id ∧
        ((JobApplication.updateStatus db id status now).2.job_applications.get
          ⟨i, h'⟩).cover_letter = (db.job_applications.get ⟨i, h⟩).cover_letter ∧
        ((JobApplication.updateStatus db id status now).2.job_applications.get
          ⟨i, h'⟩).created_at = (db.job_applications.get ⟨i, h⟩).created_at ∧
        ((db.job_applications.get ⟨i, h⟩).id ≠ id →
          (JobApplication.updateStatus db id status now).2.job_applications.get
            ⟨i, h'⟩ = db.job_applications.get ⟨i, h⟩))) ∧
    (JobApplication.updateStatus db id status now).2.jobs = db.jobs ∧
    (JobApplication.updateStatus db id status now).2.users = db.users ∧
    (JobApplication.updateStatus db id status now).2.job_seeker_profiles =
      db.job_seeker_profiles ∧
    (JobApplication.updateStatus db id status now).2.employer_profiles =
      db.employer_profiles ∧
    (JobApplication.updateStatus db id status now).2.notifications =
      db.notifications := by
  refine ⟨by simp [JobApplication.updateStatus], ?_, rfl, rfl, rfl, rfl, rfl⟩
  intro i h h'
  have hg : (JobApplication.updateStatus db id status now).2.job_applications.get
      ⟨i, h'⟩ =
      (fun a => if a.id == id then { a with status := status, updated_at := now }
        else a) (db.job_applications.get ⟨i, h⟩) := by
    simp [JobApplication.updateStatus, List.get_eq_getElem, List.getElem_map]
  rw [hg]
  generalize db.job_applications.get ⟨i, h⟩ = a
  by_cases hid : a.id = id
  · simp [hid]
  · simp [hid]

/-- C10, witness: updating application 1 of `sampleDB "Gardening"` leaves the
other row (index 1, id 2) completely unchanged. -/
theorem updateStatus_frame_witness :
    (JobApplication.updateStatus (sampleDB "Gardening") 1 "accepted"
      5).2.job_applications.get ⟨1, by decide⟩ =
      ⟨2, 1, 2, "cover two", "pending", 0, 0⟩ := by
  have h := (updateStatus_frame (sampleDB "Gardening") 1 "accepted" 5).2.1 1
    (by decide) (by decide)
  exact (h.2.2.2.2.2 (by decide)).trans (by decide)

end UrgentJobs
